import Mathlib

/-!
Verification of `src/data/analysis_script.py`, a two-function employee-data
analysis utility:

* `analyze_employee_data(df)` (the Aggregator) computes a summary dict from a
  pandas DataFrame with columns `age`, `salary`, `department`, `city`;
* `generate_report(df, results)` (the Reporter) renders the summary as a
  plain-text report string.

Modelling conventions for this shallow embedding:

* Python/numpy floats are modelled as exact rationals (`ℚ`); the float value
  `NaN` (which `Series.mean()` returns on an empty series) is modelled as
  `none` in `Option ℚ`.
* A pandas DataFrame is modelled by `Frame`: a row count together with named,
  typed columns.  Column access `df[k]` on a missing key raises `KeyError`,
  modelled by `Except` with error `PyErr.keyError k`.
* The summary dict built by the Aggregator is modelled by the structure
  `Summary` (its keys are fixed); for the Reporter, which performs dynamic
  key lookups on its `results` argument, the dict is modelled as an
  association list `List (String × SVal)` and `Summary.toDict` is the bridge.
* `df['c'].unique().tolist()` keeps the first occurrence of each value, in
  order of first appearance; `uniqueFirstSeen` models this.
* `df.groupby('department')` uses pandas' default `sort=True`, so the group
  keys (and hence the dict produced by `.to_dict()`, which preserves the
  groupby result order) are in ascending lexicographic order, NOT first-seen
  order.  The sort is modelled by `List.insertionSort` over `strLe`, an
  executable code-point lexicographic comparison (Python's string order).
* Python's `format` rounds half to even; `roundHalfEven` models the rounding
  used by the `:.1f` and `:,.0f` format specs.
-/

/-- One employee row, per the data model: `age` and `salary` numeric,
`department` and `city` text. -/
structure Record where
  age : ℚ
  salary : ℚ
  department : String
  city : String
deriving DecidableEq

/-- A typed column of a data frame: numeric (float/int dtype) or text
(object dtype). -/
inductive Col where
  | nums (vs : List ℚ)
  | strs (vs : List String)
deriving DecidableEq

/-- A pandas DataFrame: a row count (the index length, which `len(df)`
returns) and named columns. -/
structure Frame where
  nrows : ℕ
  cols : List (String × Col)

/-- Errors surfaced by the Python code: `keyError k` models `KeyError: k`
(missing column / missing dict key); `typeErr k` abstracts the
`TypeError`/`AttributeError` raised when the value found at `k` does not
support the operation applied to it. -/
inductive PyErr where
  | keyError (k : String)
  | typeErr (k : String)
deriving DecidableEq

/-- The summary produced by `analyze_employee_data`, with the dict's fixed
keys as fields, in the order of the Python dict literal. -/
structure Summary where
  total_employees : ℕ
  average_age : Option ℚ
  average_salary : Option ℚ
  departments : List String
  cities : List String
  salary_by_dept : List (String × ℚ)
  age_by_dept : List (String × ℚ)
deriving DecidableEq

/-- `Series.mean()`: the arithmetic mean of the column, or `NaN` (modelled as
`none`) when the series is empty. -/
def seriesMean (l : List ℚ) : Option ℚ :=
  if l.isEmpty then none else some (l.sum / (l.length : ℚ))

/-- First-seen deduplication with a seen-accumulator, modelling the hash-table
implementation of `Series.unique()`: each distinct value is kept once, at its
first occurrence. -/
def uniqueAux (seen : List String) : List String → List String
  | [] => []
  | a :: l => if a ∈ seen then uniqueAux seen l else a :: uniqueAux (a :: seen) l

/-- `df[c].unique().tolist()`: distinct values in order of first appearance. -/
def uniqueFirstSeen (l : List String) : List String :=
  uniqueAux [] l

/-- Code-point lexicographic comparison of character lists (Python's `<=` on
strings, which pandas' sorted groupby uses on string keys). -/
def strLeAux : List Char → List Char → Bool
  | [], _ => true
  | _ :: _, [] => false
  | a :: as, b :: bs =>
    if a.toNat < b.toNat then true
    else if b.toNat < a.toNat then false
    else strLeAux as bs

/-- Code-point lexicographic comparison of strings. -/
def strLe (s t : String) : Bool :=
  strLeAux s.data t.data

/-- Ascending sort of the group keys, as pandas `groupby`'s default
`sort=True` performs on string keys. -/
def sortKeys (l : List String) : List String :=
  List.insertionSort (fun a b => strLe a b = true) l

/-- The mean of `vals` restricted to the positions whose key equals `d`:
the aggregated value of group `d` in `df.groupby(keyCol)[valCol].mean()`. -/
def groupMean (keys : List String) (vals : List ℚ) (d : String) : ℚ :=
  let g := ((keys.zip vals).filter (fun p => p.1 = d)).map Prod.snd
  g.sum / (g.length : ℚ)

/-- `df.groupby(keyCol)[valCol].mean().to_dict()`: one entry per distinct key,
in ascending key order (pandas' default `sort=True`), mapping each key to the
group mean.  `dict` preserves the groupby result order. -/
def groupbyMean (keys : List String) (vals : List ℚ) : List (String × ℚ) :=
  (sortKeys (uniqueFirstSeen keys)).map (fun d => (d, groupMean keys vals d))

/-- `df[k]` followed by a numeric aggregation (`.mean()`): a missing column
raises `KeyError`; a text column makes the numeric aggregation raise
`TypeError`. -/
def Frame.getNumCol (df : Frame) (k : String) : Except PyErr (List ℚ) :=
  match df.cols.lookup k with
  | none => .error (.keyError k)
  | some (.nums vs) => .ok vs
  | some (.strs _) => .error (.typeErr k)

/-- `df[k]` for the text columns (`department`, `city`).  A missing column
raises `KeyError`.  The data model fixes these columns as text; a numeric
column here (whose values pandas would pass through as numbers) is outside
the schema invariant and is reported as `typeErr`.  No claim exercises that
corner: every dataset considered either has the column as text or lacks it. -/
def Frame.getStrCol (df : Frame) (k : String) : Except PyErr (List String) :=
  match df.cols.lookup k with
  | none => .error (.keyError k)
  | some (.strs vs) => .ok vs
  | some (.nums _) => .error (.typeErr k)

/-- `analyze_employee_data(df)`.  The Python dict literal evaluates its values
in textual order: `len(df)`, then `df['age'].mean()`, `df['salary'].mean()`,
`df['department'].unique()`, `df['city'].unique()`, then the two groupbys
(whose columns were already accessed, so they raise nothing new).  The first
failing access aborts the call; otherwise the summary dict is returned. -/
def analyze_employee_data (df : Frame) : Except PyErr Summary :=
  match df.getNumCol "age" with
  | .error e => .error e
  | .ok ages =>
  match df.getNumCol "salary" with
  | .error e => .error e
  | .ok salaries =>
  match df.getStrCol "department" with
  | .error e => .error e
  | .ok depts =>
  match df.getStrCol "city" with
  | .error e => .error e
  | .ok cities =>
    .ok { total_employees := df.nrows
          average_age := seriesMean ages
          average_salary := seriesMean salaries
          departments := uniqueFirstSeen depts
          cities := uniqueFirstSeen cities
          salary_by_dept := groupbyMean depts salaries
          age_by_dept := groupbyMean depts ages }

/-- A well-formed Dataset, as the spec's data model describes it (all rows
share the four-field schema), laid out as the corresponding DataFrame. -/
def Frame.ofRecords (rows : List Record) : Frame :=
  { nrows := rows.length
    cols := [("age", Col.nums (rows.map Record.age)),
             ("salary", Col.nums (rows.map Record.salary)),
             ("department", Col.strs (rows.map Record.department)),
             ("city", Col.strs (rows.map Record.city))] }

/-- Round to the nearest integer, ties to even: the rounding Python's float
`format` applies for the `:.1f` and `:,.0f` specs (after scaling). -/
def roundHalfEven (q : ℚ) : ℤ :=
  if q - (⌊q⌋ : ℚ) < 1 / 2 then ⌊q⌋
  else if (1 : ℚ) / 2 < q - (⌊q⌋ : ℚ) then ⌊q⌋ + 1
  else if ⌊q⌋ % 2 = 0 then ⌊q⌋ else ⌊q⌋ + 1

/-- Insert a thousands separator every three digits, working on the reversed
digit list. -/
def group3 : List Char → List Char
  | a :: b :: c :: d :: rest => a :: b :: c :: ',' :: group3 (d :: rest)
  | l => l

/-- Decimal digits of `n` with commas every three digits. -/
def natCommaString (n : ℕ) : String :=
  String.mk (group3 (Nat.toDigits 10 n).reverse).reverse

/-- Python's `f"{x:,.0f}"` for a (non-NaN) float `x`: round half-even to an
integer and insert thousands separators. -/
def commaFmt (q : ℚ) : String :=
  (if roundHalfEven q < 0 then "-" else "") ++ natCommaString (roundHalfEven q).natAbs

/-- Python's `f"{x:.1f}"` for a (non-NaN) float `x`: round half-even to one
decimal place. -/
def fmt1 (q : ℚ) : String :=
  (if roundHalfEven (10 * q) < 0 then "-" else "")
    ++ toString ((roundHalfEven (10 * q)).natAbs / 10) ++ "."
    ++ toString ((roundHalfEven (10 * q)).natAbs % 10)

/-- `f"{x:.1f}"` on a possibly-NaN float (`f"{float('nan'):.1f}"` is `"nan"`). -/
def fmt1opt : Option ℚ → String
  | none => "nan"
  | some q => fmt1 q

/-- `f"{x:,.0f}"` on a possibly-NaN float. -/
def commaFmtOpt : Option ℚ → String
  | none => "nan"
  | some q => commaFmt q

/-- A value stored in the Reporter's `results` dict. -/
inductive SVal where
  | i (n : ℕ)
  | f (q : Option ℚ)
  | strs (l : List String)
  | dict (m : List (String × ℚ))
deriving DecidableEq

/-- Python's `str()` as used by the plain `{results['total_employees']}`
interpolation.  For summaries produced by the Aggregator the value there is
always an integer; the renderings of the other constructors (Python would
print a float or container repr) are placeholders never reached by any
theorem below. -/
def SVal.pyStr : SVal → String
  | .i n => toString n
  | .f q => fmt1opt q
  | .strs _ => ""
  | .dict _ => ""

/-- `results[k]` with no further operation applied: only a missing key can
fail. -/
def getVal (r : List (String × SVal)) (k : String) : Except PyErr SVal :=
  match r.lookup k with
  | none => .error (.keyError k)
  | some v => .ok v

/-- `results[k]` formatted with a float format spec: missing key raises
`KeyError`; ints are accepted by Python's float formatting; a list or dict
there would raise `TypeError`. -/
def getFloat (r : List (String × SVal)) (k : String) : Except PyErr (Option ℚ) :=
  match r.lookup k with
  | none => .error (.keyError k)
  | some (.f q) => .ok q
  | some (.i n) => .ok (some (n : ℚ))
  | some _ => .error (.typeErr k)

/-- `', '.join(results[k])`: missing key raises `KeyError`; joining a
non-list-of-strings raises `TypeError`. -/
def getStrList (r : List (String × SVal)) (k : String) : Except PyErr (List String) :=
  match r.lookup k with
  | none => .error (.keyError k)
  | some (.strs l) => .ok l
  | some _ => .error (.typeErr k)

/-- `results[k].items()`: missing key raises `KeyError`; `.items()` on a
non-dict raises `AttributeError` (abstracted as `typeErr`). -/
def getDictVal (r : List (String × SVal)) (k : String) : Except PyErr (List (String × ℚ)) :=
  match r.lookup k with
  | none => .error (.keyError k)
  | some (.dict m) => .ok m
  | some _ => .error (.typeErr k)

/-- One line of the `Salary by Department:` section:
`f"- {dept}: ${salary:,.0f}\n"`. -/
def salaryLine (p : String × ℚ) : String :=
  "- " ++ p.1 ++ ": $" ++ commaFmt p.2 ++ "\n"

/-- One line of the `Age by Department:` section:
`f"- {dept}: {age:.1f} years\n"`. -/
def ageLine (p : String × ℚ) : String :=
  "- " ++ p.1 ++ ": " ++ fmt1 p.2 ++ " years\n"

/-- The Python `for` loops append one line per dict entry, in the dict's
iteration order. -/
def concatLines : List String → String
  | [] => ""
  | a :: l => a ++ concatLines l

/-- The fixed header template of the report (the triple-quoted f-string),
with the interpolated values spliced in.  The template starts with a newline
(the one right after the opening quotes) and ends with the newline after
`Salary by Department:`. -/
def reportHeadParts (te : SVal) (aa asal : Option ℚ) (deps cits : List String) : String :=
  "\nEMPLOYEE ANALYSIS REPORT\n========================\n"
  ++ "\nSummary Statistics:\n- Total Employees: " ++ SVal.pyStr te
  ++ "\n- Average Age: " ++ fmt1opt aa ++ " years"
  ++ "\n- Average Salary: $" ++ commaFmtOpt asal
  ++ "\n\nDepartments: " ++ String.intercalate ", " deps
  ++ "\nCities: " ++ String.intercalate ", " cits
  ++ "\n\nSalary by Department:\n"

/-- `generate_report(df, results)`.  The f-string evaluates its dict lookups
left to right (`total_employees`, `average_age`, `average_salary`,
`departments`, `cities`), then the first loop reads `salary_by_dept` and the
second reads `age_by_dept`; the first failing lookup aborts the call.  The
`df` argument is never consulted. -/
def generate_report (df : Frame) (results : List (String × SVal)) : Except PyErr String :=
  match getVal results "total_employees" with
  | .error e => .error e
  | .ok te =>
  match getFloat results "average_age" with
  | .error e => .error e
  | .ok aa =>
  match getFloat results "average_salary" with
  | .error e => .error e
  | .ok asal =>
  match getStrList results "departments" with
  | .error e => .error e
  | .ok deps =>
  match getStrList results "cities" with
  | .error e => .error e
  | .ok cits =>
  match getDictVal results "salary_by_dept" with
  | .error e => .error e
  | .ok sbd =>
  match getDictVal results "age_by_dept" with
  | .error e => .error e
  | .ok abd =>
    .ok (reportHeadParts te aa asal deps cits
      ++ concatLines (sbd.map salaryLine)
      ++ "\nAge by Department:\n"
      ++ concatLines (abd.map ageLine))

/-- The summary, as the Python dict that `analyze_employee_data` returns and
`generate_report` consumes. -/
def Summary.toDict (s : Summary) : List (String × SVal) :=
  [("total_employees", SVal.i s.total_employees),
   ("average_age", SVal.f s.average_age),
   ("average_salary", SVal.f s.average_salary),
   ("departments", SVal.strs s.departments),
   ("cities", SVal.strs s.cities),
   ("salary_by_dept", SVal.dict s.salary_by_dept),
   ("age_by_dept", SVal.dict s.age_by_dept)]

/-- The report rendered for a well-formed summary. -/
def reportString (s : Summary) : String :=
  reportHeadParts (SVal.i s.total_employees) s.average_age s.average_salary
      s.departments s.cities
    ++ concatLines (s.salary_by_dept.map salaryLine)
    ++ "\nAge by Department:\n"
    ++ concatLines (s.age_by_dept.map ageLine)

/-- The first required column missing from `df`, in the order the Aggregator
accesses them. -/
def firstMissingColumn (df : Frame) : Option String :=
  ["age", "salary", "department", "city"].find? (fun k => (df.cols.lookup k).isNone)

/-- The first key the Reporter looks up that is missing from `results`, in
lookup order. -/
def firstMissingKey (r : List (String × SVal)) : Option String :=
  ["total_employees", "average_age", "average_salary", "departments", "cities",
   "salary_by_dept", "age_by_dept"].find? (fun k => (r.lookup k).isNone)

/-- `df`'s required columns, where present, have the dtype the schema
prescribes (numeric `age`/`salary`, text `department`/`city`). -/
def numColOk (df : Frame) (k : String) : Bool :=
  match df.cols.lookup k with
  | some (.strs _) => false
  | _ => true

/-- Text-dtype check for a present column. -/
def strColOk (df : Frame) (k : String) : Bool :=
  match df.cols.lookup k with
  | some (.nums _) => false
  | _ => true

/-- All four required columns, where present, have the dtype the schema
prescribes. -/
def colsWellTyped (df : Frame) : Bool :=
  numColOk df "age" && numColOk df "salary" && strColOk df "department"
    && strColOk df "city"

/-- The summary values present in `results` have types Python's formatting
accepts at their use sites (floats/ints for the averages, a list of strings
for `departments`/`cities`, a dict for the per-department sections). -/
def floatValOk (r : List (String × SVal)) (k : String) : Bool :=
  match r.lookup k with
  | some (.strs _) => false
  | some (.dict _) => false
  | _ => true

/-- List-of-strings check for a present dict value. -/
def strsValOk (r : List (String × SVal)) (k : String) : Bool :=
  match r.lookup k with
  | none => true
  | some (.strs _) => true
  | some _ => false

/-- Dict check for a present dict value. -/
def dictValOk (r : List (String × SVal)) (k : String) : Bool :=
  match r.lookup k with
  | none => true
  | some (.dict _) => true
  | some _ => false

/-- The values present in `results` are of the shapes the report template
formats without a type error. -/
def reportValsOk (r : List (String × SVal)) : Bool :=
  floatValOk r "average_age" && floatValOk r "average_salary"
    && strsValOk r "departments" && strsValOk r "cities"
    && dictValOk r "salary_by_dept" && dictValOk r "age_by_dept"

/-- Index of the first occurrence of `x` (the length of the list when `x`
does not occur): position of first appearance in a column. -/
def firstIdx (x : String) : List String → ℕ
  | [] => 0
  | a :: l => if a = x then 0 else firstIdx x l + 1

/-- The three-row round-trip Dataset of the spec's testable properties. -/
def empDataset : List Record :=
  [⟨30, 50000, "Eng", "NYC"⟩, ⟨40, 70000, "Eng", "LA"⟩, ⟨25, 40000, "Sales", "NYC"⟩]

/-- The summary the Aggregator produces for `empDataset`. -/
def empSummary : Summary :=
  { total_employees := 3
    average_age := some (95 / 3)
    average_salary := some (160000 / 3)
    departments := ["Eng", "Sales"]
    cities := ["NYC", "LA"]
    salary_by_dept := [("Eng", 60000), ("Sales", 40000)]
    age_by_dept := [("Eng", 35), ("Sales", 25)] }

/-- A two-row dataset whose departments first appear in non-alphabetical
order, separating first-seen order from sorted order. -/
def cxDataset : List Record :=
  [⟨30, 50000, "Sales", "NYC"⟩, ⟨40, 70000, "Eng", "LA"⟩]

/-- A frame with the `salary` column missing (and the present columns
well-typed). -/
def wFrame : Frame :=
  { nrows := 1
    cols := [("age", Col.nums [30]), ("department", Col.strs ["Eng"]),
             ("city", Col.strs ["NYC"])] }

/-- A summary dict lacking the `average_age` key. -/
def wDict : List (String × SVal) :=
  [("total_employees", SVal.i 3)]

theorem analyze_ofRecords (rows : List Record) :
    analyze_employee_data (Frame.ofRecords rows) =
      .ok { total_employees := rows.length
            average_age := seriesMean (rows.map Record.age)
            average_salary := seriesMean (rows.map Record.salary)
            departments := uniqueFirstSeen (rows.map Record.department)
            cities := uniqueFirstSeen (rows.map Record.city)
            salary_by_dept :=
              groupbyMean (rows.map Record.department) (rows.map Record.salary)
            age_by_dept :=
              groupbyMean (rows.map Record.department) (rows.map Record.age) } :=
  rfl

theorem mem_uniqueAux (l : List String) :
    ∀ (seen : List String) (x : String), x ∈ uniqueAux seen l ↔ x ∈ l ∧ x ∉ seen := by
  induction l with
  | nil => intro seen x; simp [uniqueAux]
  | cons a l ih =>
    intro seen x
    by_cases ha : a ∈ seen
    · rw [uniqueAux, if_pos ha, ih]
      by_cases hx : x = a
      · subst hx; simp [ha]
      · simp [hx]
    · rw [uniqueAux, if_neg ha]
      by_cases hx : x = a
      · subst hx; simp [ha]
      · by_cases hxs : x ∈ seen <;> simp [List.mem_cons, ih, hx, hxs]

theorem mem_uniqueFirstSeen (l : List String) (x : String) :
    x ∈ uniqueFirstSeen l ↔ x ∈ l := by
  rw [uniqueFirstSeen, mem_uniqueAux]
  simp

theorem nodup_uniqueAux (l : List String) : ∀ seen, (uniqueAux seen l).Nodup := by
  induction l with
  | nil => intro seen; simp [uniqueAux]
  | cons a l ih =>
    intro seen
    by_cases ha : a ∈ seen
    · rw [uniqueAux, if_pos ha]; exact ih seen
    · rw [uniqueAux, if_neg ha]
      refine List.nodup_cons.2 ⟨?_, ih _⟩
      intro hmem
      exact ((mem_uniqueAux l _ a).1 hmem).2 (List.mem_cons_self a seen)

theorem nodup_uniqueFirstSeen (l : List String) : (uniqueFirstSeen l).Nodup :=
  nodup_uniqueAux l []

theorem pairwise_firstIdx_uniqueAux (l : List String) : ∀ seen,
    (uniqueAux seen l).Pairwise (fun x y => firstIdx x l < firstIdx y l) := by
  induction l with
  | nil => intro seen; simp [uniqueAux]
  | cons a l ih =>
    intro seen
    by_cases ha : a ∈ seen
    · rw [uniqueAux, if_pos ha]
      refine List.Pairwise.imp_of_mem ?_ (ih seen)
      intro x y hx hy hlt
      have hxa : x ≠ a := fun h => ((mem_uniqueAux l seen x).1 hx).2 (h ▸ ha)
      have hya : y ≠ a := fun h => ((mem_uniqueAux l seen y).1 hy).2 (h ▸ ha)
      simpa [firstIdx, Ne.symm hxa, Ne.symm hya] using Nat.add_lt_add_right hlt 1
    · rw [uniqueAux, if_neg ha]
      refine List.pairwise_cons.2 ⟨?_, ?_⟩
      · intro b hb
        have hba : b ≠ a := fun h =>
          ((mem_uniqueAux l _ b).1 hb).2 (h ▸ List.mem_cons_self a seen)
        simp [firstIdx, Ne.symm hba]
      · refine List.Pairwise.imp_of_mem ?_ (ih (a :: seen))
        intro x y hx hy hlt
        have hxa : x ≠ a := fun h =>
          ((mem_uniqueAux l _ x).1 hx).2 (h ▸ List.mem_cons_self a seen)
        have hya : y ≠ a := fun h =>
          ((mem_uniqueAux l _ y).1 hy).2 (h ▸ List.mem_cons_self a seen)
        simpa [firstIdx, Ne.symm hxa, Ne.symm hya] using Nat.add_lt_add_right hlt 1

theorem pairwise_firstIdx_uniqueFirstSeen (l : List String) :
    (uniqueFirstSeen l).Pairwise (fun x y => firstIdx x l < firstIdx y l) :=
  pairwise_firstIdx_uniqueAux l []

theorem strLeAux_cons_iff (a b : Char) (as bs : List Char) :
    strLeAux (a :: as) (b :: bs) = true ↔
      a.toNat < b.toNat ∨ (a.toNat = b.toNat ∧ strLeAux as bs = true) := by
  by_cases h1 : a.toNat < b.toNat
  · simp [strLeAux, h1]
  · by_cases h2 : b.toNat < a.toNat
    · rw [strLeAux, if_neg h1, if_pos h2]
      constructor
      · intro h; cases h
      · rintro (h | ⟨h, _⟩) <;> omega
    · have heq : a.toNat = b.toNat := by omega
      rw [strLeAux, if_neg h1, if_neg h2]
      simp [heq]

theorem strLeAux_total : ∀ as bs : List Char, strLeAux as bs = true ∨ strLeAux bs as = true := by
  intro as
  induction as with
  | nil => intro bs; left; rfl
  | cons a as ih =>
    intro bs
    cases bs with
    | nil => right; rfl
    | cons b bs =>
      rw [strLeAux_cons_iff, strLeAux_cons_iff]
      rcases Nat.lt_trichotomy a.toNat b.toNat with h | h | h
      · left; exact Or.inl h
      · rcases ih bs with h' | h'
        · left; exact Or.inr ⟨h, h'⟩
        · right; exact Or.inr ⟨h.symm, h'⟩
      · right; exact Or.inl h

theorem strLeAux_trans : ∀ as bs cs : List Char, strLeAux as bs = true →
    strLeAux bs cs = true → strLeAux as cs = true := by
  intro as
  induction as with
  | nil => intro bs cs h1 h2; rfl
  | cons a as ih =>
    intro bs cs h1 h2
    cases bs with
    | nil => simp [strLeAux] at h1
    | cons b bs =>
      cases cs with
      | nil => simp [strLeAux] at h2
      | cons c cs =>
        rw [strLeAux_cons_iff] at h1 h2 ⊢
        rcases h1 with h1 | ⟨e1, r1⟩ <;> rcases h2 with h2 | ⟨e2, r2⟩
        · left; omega
        · left; omega
        · left; omega
        · right; exact ⟨by omega, ih bs cs r1 r2⟩

theorem sortKeys_pairwise (l : List String) :
    (sortKeys l).Pairwise (fun a b => strLe a b = true) := by
  haveI : IsTrans String (fun a b => strLe a b = true) :=
    ⟨fun a b c h1 h2 => strLeAux_trans a.data b.data c.data h1 h2⟩
  haveI : IsTotal String (fun a b => strLe a b = true) :=
    ⟨fun a b => strLeAux_total a.data b.data⟩
  exact List.sorted_insertionSort _ l

theorem lookup_map_pair (f : String → ℚ) (d : String) : ∀ l : List String, d ∈ l →
    (l.map (fun x => (x, f x))).lookup d = some (f d) := by
  intro l
  induction l with
  | nil => intro h; cases h
  | cons a t ih =>
    intro hd
    by_cases h : d = a
    · subst h; simp [List.lookup]
    · have hdt : d ∈ t := by
        rcases List.mem_cons.1 hd with h' | h'
        · exact absurd h' h
        · exact h'
      have hba : (d == a) = false := by simp [h]
      simp [List.lookup, hba, ih hdt]

theorem groupbyMean_keys (keys : List String) (vals : List ℚ) :
    (groupbyMean keys vals).map Prod.fst = sortKeys (uniqueFirstSeen keys) := by
  rw [groupbyMean, List.map_map]
  exact List.map_id _

theorem lookup_groupbyMean (keys : List String) (vals : List ℚ) (d : String)
    (hd : d ∈ uniqueFirstSeen keys) :
    (groupbyMean keys vals).lookup d = some (groupMean keys vals d) := by
  have hmem : d ∈ sortKeys (uniqueFirstSeen keys) := by
    rw [sortKeys, List.mem_insertionSort]
    exact hd
  exact lookup_map_pair _ _ _ hmem

theorem groupMean_records (rows : List Record) (g : Record → ℚ) (d : String) :
    groupMean (rows.map Record.department) (rows.map g) d =
      ((rows.filter (fun r => r.department = d)).map g).sum /
        (((rows.filter (fun r => r.department = d)).map g).length : ℚ) := by
  rw [groupMean, List.zip_map', List.filter_map, List.map_map]
  rfl

theorem generate_report_toDict (df : Frame) (s : Summary) :
    generate_report df s.toDict = .ok (reportString s) :=
  rfl

theorem getNumCol_err (df : Frame) (k : String) (h : df.cols.lookup k = none) :
    df.getNumCol k = .error (.keyError k) := by
  simp [Frame.getNumCol, h]

theorem getNumCol_ok_of (df : Frame) (k : String) (c : Col)
    (h : df.cols.lookup k = some c) (hok : numColOk df k = true) :
    ∃ vs, df.getNumCol k = .ok vs := by
  cases c with
  | nums vs => exact ⟨vs, by simp [Frame.getNumCol, h]⟩
  | strs vs => simp [numColOk, h] at hok

theorem getStrCol_err (df : Frame) (k : String) (h : df.cols.lookup k = none) :
    df.getStrCol k = .error (.keyError k) := by
  simp [Frame.getStrCol, h]

theorem getStrCol_ok_of (df : Frame) (k : String) (c : Col)
    (h : df.cols.lookup k = some c) (hok : strColOk df k = true) :
    ∃ vs, df.getStrCol k = .ok vs := by
  cases c with
  | strs vs => exact ⟨vs, by simp [Frame.getStrCol, h]⟩
  | nums vs => simp [strColOk, h] at hok

theorem analyze_missing_column (df : Frame) (k : String)
    (hwt : colsWellTyped df = true) (hm : firstMissingColumn df = some k) :
    analyze_employee_data df = .error (.keyError k) := by
  simp only [colsWellTyped, Bool.and_eq_true] at hwt
  obtain ⟨⟨⟨hage, hsal⟩, hdept⟩, hcity⟩ := hwt
  unfold firstMissingColumn at hm
  cases h1 : df.cols.lookup "age" with
  | none =>
    rw [List.find?_cons_of_pos _ (by simp [h1])] at hm
    obtain rfl := Option.some.inj hm
    simp [analyze_employee_data, getNumCol_err _ _ h1]
  | some c1 =>
    rw [List.find?_cons_of_neg _ (by simp [h1])] at hm
    obtain ⟨vs1, e1⟩ := getNumCol_ok_of df _ c1 h1 hage
    cases h2 : df.cols.lookup "salary" with
    | none =>
      rw [List.find?_cons_of_pos _ (by simp [h2])] at hm
      obtain rfl := Option.some.inj hm
      simp [analyze_employee_data, e1, getNumCol_err _ _ h2]
    | some c2 =>
      rw [List.find?_cons_of_neg _ (by simp [h2])] at hm
      obtain ⟨vs2, e2⟩ := getNumCol_ok_of df _ c2 h2 hsal
      cases h3 : df.cols.lookup "department" with
      | none =>
        rw [List.find?_cons_of_pos _ (by simp [h3])] at hm
        obtain rfl := Option.some.inj hm
        simp [analyze_employee_data, e1, e2, getStrCol_err _ _ h3]
      | some c3 =>
        rw [List.find?_cons_of_neg _ (by simp [h3])] at hm
        obtain ⟨vs3, e3⟩ := getStrCol_ok_of df _ c3 h3 hdept
        cases h4 : df.cols.lookup "city" with
        | none =>
          rw [List.find?_cons_of_pos _ (by simp [h4])] at hm
          obtain rfl := Option.some.inj hm
          simp [analyze_employee_data, e1, e2, e3, getStrCol_err _ _ h4]
        | some c4 =>
          rw [List.find?_cons_of_neg _ (by simp [h4])] at hm
          simp at hm

theorem getVal_err (r : List (String × SVal)) (k : String) (h : r.lookup k = none) :
    getVal r k = .error (.keyError k) := by
  simp [getVal, h]

theorem getVal_ok (r : List (String × SVal)) (k : String) (v : SVal)
    (h : r.lookup k = some v) : getVal r k = .ok v := by
  simp [getVal, h]

theorem getFloat_err (r : List (String × SVal)) (k : String) (h : r.lookup k = none) :
    getFloat r k = .error (.keyError k) := by
  simp [getFloat, h]

theorem getFloat_ok_of (r : List (String × SVal)) (k : String) (v : SVal)
    (h : r.lookup k = some v) (hok : floatValOk r k = true) :
    ∃ q, getFloat r k = .ok q := by
  cases v with
  | i n => exact ⟨some (n : ℚ), by simp [getFloat, h]⟩
  | f q => exact ⟨q, by simp [getFloat, h]⟩
  | strs l => simp [floatValOk, h] at hok
  | dict m => simp [floatValOk, h] at hok

theorem getStrList_err (r : List (String × SVal)) (k : String) (h : r.lookup k = none) :
    getStrList r k = .error (.keyError k) := by
  simp [getStrList, h]

theorem getStrList_ok_of (r : List (String × SVal)) (k : String) (v : SVal)
    (h : r.lookup k = some v) (hok : strsValOk r k = true) :
    ∃ l, getStrList r k = .ok l := by
  cases v with
  | strs l => exact ⟨l, by simp [getStrList, h]⟩
  | i n => simp [strsValOk, h] at hok
  | f q => simp [strsValOk, h] at hok
  | dict m => simp [strsValOk, h] at hok

theorem getDictVal_err (r : List (String × SVal)) (k : String) (h : r.lookup k = none) :
    getDictVal r k = .error (.keyError k) := by
  simp [getDictVal, h]

theorem getDictVal_ok_of (r : List (String × SVal)) (k : String) (v : SVal)
    (h : r.lookup k = some v) (hok : dictValOk r k = true) :
    ∃ m, getDictVal r k = .ok m := by
  cases v with
  | dict m => exact ⟨m, by simp [getDictVal, h]⟩
  | i n => simp [dictValOk, h] at hok
  | f q => simp [dictValOk, h] at hok
  | strs l => simp [dictValOk, h] at hok

theorem report_missing_key (df : Frame) (r : List (String × SVal)) (k : String)
    (hv : reportValsOk r = true) (hm : firstMissingKey r = some k) :
    generate_report df r = .error (.keyError k) := by
  simp only [reportValsOk, Bool.and_eq_true] at hv
  obtain ⟨⟨⟨⟨⟨haa, has⟩, hdp⟩, hct⟩, hsb⟩, hab⟩ := hv
  unfold firstMissingKey at hm
  cases h1 : r.lookup "total_employees" with
  | none =>
    rw [List.find?_cons_of_pos _ (by simp [h1])] at hm
    obtain rfl := Option.some.inj hm
    simp [generate_report, getVal_err _ _ h1]
  | some v1 =>
    rw [List.find?_cons_of_neg _ (by simp [h1])] at hm
    have e1 := getVal_ok _ _ _ h1
    cases h2 : r.lookup "average_age" with
    | none =>
      rw [List.find?_cons_of_pos _ (by simp [h2])] at hm
      obtain rfl := Option.some.inj hm
      simp [generate_report, e1, getFloat_err _ _ h2]
    | some v2 =>
      rw [List.find?_cons_of_neg _ (by simp [h2])] at hm
      obtain ⟨q2, e2⟩ := getFloat_ok_of r _ v2 h2 haa
      cases h3 : r.lookup "average_salary" with
      | none =>
        rw [List.find?_cons_of_pos _ (by simp [h3])] at hm
        obtain rfl := Option.some.inj hm
        simp [generate_report, e1, e2, getFloat_err _ _ h3]
      | some v3 =>
        rw [List.find?_cons_of_neg _ (by simp [h3])] at hm
        obtain ⟨q3, e3⟩ := getFloat_ok_of r _ v3 h3 has
        cases h4 : r.lookup "departments" with
        | none =>
          rw [List.find?_cons_of_pos _ (by simp [h4])] at hm
          obtain rfl := Option.some.inj hm
          simp [generate_report, e1, e2, e3, getStrList_err _ _ h4]
        | some v4 =>
          rw [List.find?_cons_of_neg _ (by simp [h4])] at hm
          obtain ⟨l4, e4⟩ := getStrList_ok_of r _ v4 h4 hdp
          cases h5 : r.lookup "cities" with
          | none =>
            rw [List.find?_cons_of_pos _ (by simp [h5])] at hm
            obtain rfl := Option.some.inj hm
            simp [generate_report, e1, e2, e3, e4, getStrList_err _ _ h5]
          | some v5 =>
            rw [List.find?_cons_of_neg _ (by simp [h5])] at hm
            obtain ⟨l5, e5⟩ := getStrList_ok_of r _ v5 h5 hct
            cases h6 : r.lookup "salary_by_dept" with
            | none =>
              rw [List.find?_cons_of_pos _ (by simp [h6])] at hm
              obtain rfl := Option.some.inj hm
              simp [generate_report, e1, e2, e3, e4, e5, getDictVal_err _ _ h6]
            | some v6 =>
              rw [List.find?_cons_of_neg _ (by simp [h6])] at hm
              obtain ⟨m6, e6⟩ := getDictVal_ok_of r _ v6 h6 hsb
              cases h7 : r.lookup "age_by_dept" with
              | none =>
                rw [List.find?_cons_of_pos _ (by simp [h7])] at hm
                obtain rfl := Option.some.inj hm
                simp [generate_report, e1, e2, e3, e4, e5, e6, getDictVal_err _ _ h7]
              | some v7 =>
                rw [List.find?_cons_of_neg _ (by simp [h7])] at hm
                simp at hm

theorem concatLines_age_endsNL (m : List (String × ℚ)) :
    ∀ X : String, (∃ p, X = p ++ "\n") →
      ∃ p, X ++ concatLines (m.map ageLine) = p ++ "\n" := by
  induction m with
  | nil =>
    intro X hX
    simpa [concatLines, String.append_empty] using hX
  | cons a m ih =>
    intro X hX
    have h0 : ageLine a = ("- " ++ a.1 ++ ": " ++ fmt1 a.2 ++ " years") ++ "\n" := by
      rw [ageLine, show (" years\n" : String) = " years" ++ "\n" from rfl,
        ← String.append_assoc]
    obtain ⟨p, hp⟩ := ih (X ++ ageLine a)
      ⟨X ++ ("- " ++ a.1 ++ ": " ++ fmt1 a.2 ++ " years"), by rw [h0, ← String.append_assoc]⟩
    refine ⟨p, ?_⟩
    have hsplit : X ++ concatLines ((a :: m).map ageLine) =
        (X ++ ageLine a) ++ concatLines (m.map ageLine) := by
      rw [List.map_cons,
        show concatLines (ageLine a :: m.map ageLine)
          = ageLine a ++ concatLines (m.map ageLine) from rfl,
        ← String.append_assoc]
    rw [hsplit, hp]

theorem floor_ten_mean_age : ⌊(10 * (95 / 3) : ℚ)⌋ = 316 := by
  rw [Int.floor_eq_iff] <;> norm_num

theorem rhe_mean_age : roundHalfEven (10 * (95 / 3) : ℚ) = 317 := by
  unfold roundHalfEven
  rw [floor_ten_mean_age]
  norm_num

theorem fmt1_mean_age : fmt1 (95 / 3) = "31.7" := by
  unfold fmt1
  rw [rhe_mean_age]
  rfl

theorem floor_mean_salary : ⌊(160000 / 3 : ℚ)⌋ = 53333 := by
  rw [Int.floor_eq_iff] <;> norm_num

theorem rhe_mean_salary : roundHalfEven (160000 / 3 : ℚ) = 53333 := by
  unfold roundHalfEven
  rw [floor_mean_salary]
  norm_num

theorem commaFmt_mean_salary : commaFmt (160000 / 3) = "53,333" := by
  unfold commaFmt
  rw [rhe_mean_salary]
  rfl

theorem floor_60000 : ⌊(60000 : ℚ)⌋ = 60000 := by
  rw [Int.floor_eq_iff] <;> norm_num

theorem rhe_60000 : roundHalfEven (60000 : ℚ) = 60000 := by
  unfold roundHalfEven
  rw [floor_60000]
  norm_num

theorem commaFmt_60000 : commaFmt (60000 : ℚ) = "60,000" := by
  unfold commaFmt
  rw [rhe_60000]
  rfl

theorem floor_40000 : ⌊(40000 : ℚ)⌋ = 40000 := by
  rw [Int.floor_eq_iff] <;> norm_num

theorem rhe_40000 : roundHalfEven (40000 : ℚ) = 40000 := by
  unfold roundHalfEven
  rw [floor_40000]
  norm_num

theorem commaFmt_40000 : commaFmt (40000 : ℚ) = "40,000" := by
  unfold commaFmt
  rw [rhe_40000]
  rfl

theorem floor_350 : ⌊(10 * (35 : ℚ))⌋ = 350 := by
  rw [Int.floor_eq_iff] <;> norm_num

theorem rhe_350 : roundHalfEven (10 * (35 : ℚ)) = 350 := by
  unfold roundHalfEven
  rw [floor_350]
  norm_num

theorem fmt1_35 : fmt1 (35 : ℚ) = "35.0" := by
  unfold fmt1
  rw [rhe_350]
  rfl

theorem floor_250 : ⌊(10 * (25 : ℚ))⌋ = 250 := by
  rw [Int.floor_eq_iff] <;> norm_num

theorem rhe_250 : roundHalfEven (10 * (25 : ℚ)) = 250 := by
  unfold roundHalfEven
  rw [floor_250]
  norm_num

theorem fmt1_25 : fmt1 (25 : ℚ) = "25.0" := by
  unfold fmt1
  rw [rhe_250]
  rfl

theorem analyze_empDataset :
    analyze_employee_data (Frame.ofRecords empDataset) = .ok empSummary := by
  rw [analyze_ofRecords]
  have hmean_age : seriesMean (empDataset.map Record.age) = some (95 / 3) := by
    have h : seriesMean (empDataset.map Record.age) =
        some ((([30, 40, 25] : List ℚ)).sum / ((([30, 40, 25] : List ℚ)).length : ℚ)) := rfl
    rw [h]
    norm_num
  have hmean_sal : seriesMean (empDataset.map Record.salary) = some (160000 / 3) := by
    have h : seriesMean (empDataset.map Record.salary) =
        some ((([50000, 70000, 40000] : List ℚ)).sum /
          ((([50000, 70000, 40000] : List ℚ)).length : ℚ)) := rfl
    rw [h]
    norm_num
  have hgS : groupbyMean (empDataset.map Record.department) (empDataset.map Record.salary) =
      [("Eng", groupMean (empDataset.map Record.department)
          (empDataset.map Record.salary) "Eng"),
       ("Sales", groupMean (empDataset.map Record.department)
          (empDataset.map Record.salary) "Sales")] := rfl
  have hgA : groupbyMean (empDataset.map Record.department) (empDataset.map Record.age) =
      [("Eng", groupMean (empDataset.map Record.department)
          (empDataset.map Record.age) "Eng"),
       ("Sales", groupMean (empDataset.map Record.department)
          (empDataset.map Record.age) "Sales")] := rfl
  have hgSE : groupMean (empDataset.map Record.department)
      (empDataset.map Record.salary) "Eng" = 60000 := by
    have h : groupMean (empDataset.map Record.department)
        (empDataset.map Record.salary) "Eng" =
        (([50000, 70000] : List ℚ)).sum / ((([50000, 70000] : List ℚ)).length : ℚ) := rfl
    rw [h]
    norm_num
  have hgSS : groupMean (empDataset.map Record.department)
      (empDataset.map Record.salary) "Sales" = 40000 := by
    have h : groupMean (empDataset.map Record.department)
        (empDataset.map Record.salary) "Sales" =
        (([40000] : List ℚ)).sum / ((([40000] : List ℚ)).length : ℚ) := rfl
    rw [h]
    norm_num
  have hgAE : groupMean (empDataset.map Record.department)
      (empDataset.map Record.age) "Eng" = 35 := by
    have h : groupMean (empDataset.map Record.department)
        (empDataset.map Record.age) "Eng" =
        (([30, 40] : List ℚ)).sum / ((([30, 40] : List ℚ)).length : ℚ) := rfl
    rw [h]
    norm_num
  have hgAS : groupMean (empDataset.map Record.department)
      (empDataset.map Record.age) "Sales" = 25 := by
    have h : groupMean (empDataset.map Record.department)
        (empDataset.map Record.age) "Sales" =
        (([25] : List ℚ)).sum / ((([25] : List ℚ)).length : ℚ) := rfl
    rw [h]
    norm_num
  rw [hmean_age, hmean_sal, hgS, hgA, hgSE, hgSS, hgAE, hgAS]
  rfl

set_option maxRecDepth 8000 in
theorem report_empSummary :
    generate_report (Frame.ofRecords empDataset) empSummary.toDict =
      .ok "\nEMPLOYEE ANALYSIS REPORT\n========================\n\nSummary Statistics:\n- Total Employees: 3\n- Average Age: 31.7 years\n- Average Salary: $53,333\n\nDepartments: Eng, Sales\nCities: NYC, LA\n\nSalary by Department:\n- Eng: $60,000\n- Sales: $40,000\n\nAge by Department:\n- Eng: 35.0 years\n- Sales: 25.0 years\n" := by
  rw [generate_report_toDict]
  have h1 : fmt1opt empSummary.average_age = "31.7" := by
    rw [show fmt1opt empSummary.average_age = fmt1 (95 / 3) from rfl, fmt1_mean_age]
  have h2 : commaFmtOpt empSummary.average_salary = "53,333" := by
    rw [show commaFmtOpt empSummary.average_salary = commaFmt (160000 / 3) from rfl,
      commaFmt_mean_salary]
  have hs : concatLines (empSummary.salary_by_dept.map salaryLine) =
      "- Eng: $60,000\n- Sales: $40,000\n" := by
    rw [show concatLines (empSummary.salary_by_dept.map salaryLine) =
        "- " ++ "Eng" ++ ": $" ++ commaFmt (60000 : ℚ) ++ "\n"
          ++ ("- " ++ "Sales" ++ ": $" ++ commaFmt (40000 : ℚ) ++ "\n" ++ "") from rfl,
      commaFmt_60000, commaFmt_40000]
    rfl
  have ha : concatLines (empSummary.age_by_dept.map ageLine) =
      "- Eng: 35.0 years\n- Sales: 25.0 years\n" := by
    rw [show concatLines (empSummary.age_by_dept.map ageLine) =
        "- " ++ "Eng" ++ ": " ++ fmt1 (35 : ℚ) ++ " years\n"
          ++ ("- " ++ "Sales" ++ ": " ++ fmt1 (25 : ℚ) ++ " years\n" ++ "") from rfl,
      fmt1_35, fmt1_25]
    rfl
  unfold reportString reportHeadParts
  rw [h1, h2, hs, ha]
  rfl

theorem append_ageHeader_endsNL (x : String) :
    ∃ p, x ++ "\nAge by Department:\n" = p ++ "\n" := by
  refine ⟨x ++ "\nAge by Department:", ?_⟩
  conv_lhs =>
    rw [show ("\nAge by Department:\n" : String) = "\nAge by Department:" ++ "\n" from rfl]
  rw [← String.append_assoc]

/-- C1: for every non-empty Dataset with the four required columns and every
department `d` in the Summary's `departments` list, `salary_by_dept` maps `d`
to the arithmetic mean of `salary` over exactly the rows whose department
equals `d`, and `age_by_dept` maps `d` to the arithmetic mean of `age` over
those same rows. -/
theorem aggregator_group_means (rows : List Record) (s : Summary)
    (hok : analyze_employee_data (Frame.ofRecords rows) = .ok s)
    (hne : rows ≠ []) (d : String) (hd : d ∈ s.departments) :
    s.salary_by_dept.lookup d =
      some (((rows.filter (fun r => r.department = d)).map Record.salary).sum /
        ((((rows.filter (fun r => r.department = d)).map Record.salary).length : ℚ))) ∧
    s.age_by_dept.lookup d =
      some (((rows.filter (fun r => r.department = d)).map Record.age).sum /
        ((((rows.filter (fun r => r.department = d)).map Record.age).length : ℚ))) := by
  rw [analyze_ofRecords] at hok
  obtain rfl := (Except.ok.inj hok).symm
  have hd' : d ∈ uniqueFirstSeen (rows.map Record.department) := hd
  constructor
  · exact (lookup_groupbyMean _ _ _ hd').trans
      (congrArg some (groupMean_records rows Record.salary d))
  · exact (lookup_groupbyMean _ _ _ hd').trans
      (congrArg some (groupMean_records rows Record.age d))

/-- Witness for C1 at the three-row round-trip Dataset and department
`Eng`. -/
theorem aggregator_group_means_witness :
    analyze_employee_data (Frame.ofRecords empDataset) = .ok empSummary ∧
    empDataset ≠ [] ∧ "Eng" ∈ empSummary.departments ∧
    empSummary.salary_by_dept.lookup "Eng" =
      some (((empDataset.filter (fun r => r.department = "Eng")).map Record.salary).sum /
        ((((empDataset.filter (fun r => r.department = "Eng")).map Record.salary).length : ℚ))) ∧
    empSummary.age_by_dept.lookup "Eng" =
      some (((empDataset.filter (fun r => r.department = "Eng")).map Record.age).sum /
        ((((empDataset.filter (fun r => r.department = "Eng")).map Record.age).length : ℚ))) :=
  ⟨analyze_empDataset, by decide, by decide,
   (aggregator_group_means empDataset empSummary analyze_empDataset (by decide) "Eng"
      (by decide)).1,
   (aggregator_group_means empDataset empSummary analyze_empDataset (by decide) "Eng"
      (by decide)).2⟩

/-- C2, counterexample: on a Dataset whose departments first appear in the
order `Sales`, `Eng`, the Summary's `departments` list (= first-seen order)
is `["Sales", "Eng"]`, but `salary_by_dept` and `age_by_dept` iterate in the
order `["Eng", "Sales"]` — the groupby's sorted order, not the first-seen
(insertion) order claimed. -/
theorem dept_mapping_order_counterexample :
    (analyze_employee_data (Frame.ofRecords cxDataset)).map
        (fun s => s.salary_by_dept.map Prod.fst) = .ok ["Eng", "Sales"] ∧
    (analyze_employee_data (Frame.ofRecords cxDataset)).map
        (fun s => s.age_by_dept.map Prod.fst) = .ok ["Eng", "Sales"] ∧
    (analyze_employee_data (Frame.ofRecords cxDataset)).map
        (fun s => s.departments) = .ok ["Sales", "Eng"] ∧
    (["Eng", "Sales"] : List String) ≠ ["Sales", "Eng"] :=
  ⟨rfl, rfl, rfl, by decide⟩

/-- C2 (amended): the report's per-department lines are emitted in the
`salary_by_dept` / `age_by_dept` mapping order, and that mapping order is the
ascending lexicographic (sorted) order of the distinct department names — the
order of pandas' sorted groupby — not the first-seen order of the input
Dataset. -/
theorem dept_mapping_order_sorted (df : Frame) (rows : List Record) :
    ∃ s, analyze_employee_data (Frame.ofRecords rows) = .ok s ∧
      s.salary_by_dept.map Prod.fst =
        sortKeys (uniqueFirstSeen (rows.map Record.department)) ∧
      s.age_by_dept.map Prod.fst = s.salary_by_dept.map Prod.fst ∧
      (s.salary_by_dept.map Prod.fst).Pairwise (fun a b => strLe a b = true) ∧
      generate_report df s.toDict =
        .ok (reportHeadParts (SVal.i s.total_employees) s.average_age s.average_salary
            s.departments s.cities
          ++ concatLines (s.salary_by_dept.map salaryLine)
          ++ "\nAge by Department:\n"
          ++ concatLines (s.age_by_dept.map ageLine)) := by
  refine ⟨_, analyze_ofRecords rows, groupbyMean_keys _ _, ?_, ?_, ?_⟩
  · exact (groupbyMean_keys _ _).trans (groupbyMean_keys _ _).symm
  · show ((groupbyMean (rows.map Record.department) (rows.map Record.salary)).map
        Prod.fst).Pairwise (fun a b => strLe a b = true)
    rw [groupbyMean_keys]
    exact sortKeys_pairwise _
  · exact generate_report_toDict df _

set_option maxRecDepth 8000 in
/-- C3: the round-trip scenario.  On the three-row Dataset the Aggregator
returns total_employees 3, average_age 95/3 = 31.666..., average_salary
160000/3 (whose two-decimal rounding is 53333.33), departments
`["Eng", "Sales"]`, salary_by_dept mapping Eng to 60000 and Sales to 40000,
age_by_dept mapping Eng to 35 and Sales to 25, and the Reporter's output
contains the lines `- Eng: $60,000` and `- Eng: 35.0 years`. -/
theorem roundtrip_scenario :
    analyze_employee_data (Frame.ofRecords empDataset) = .ok empSummary ∧
    empSummary.total_employees = 3 ∧
    empSummary.average_age = some (95 / 3) ∧
    empSummary.average_salary = some (160000 / 3) ∧
    |(160000 : ℚ) / 3 - 5333333 / 100| < 1 / 200 ∧
    empSummary.departments = ["Eng", "Sales"] ∧
    empSummary.salary_by_dept = [("Eng", 60000), ("Sales", 40000)] ∧
    empSummary.age_by_dept = [("Eng", 35), ("Sales", 25)] ∧
    (∃ a b, generate_report (Frame.ofRecords empDataset) empSummary.toDict =
        .ok (a ++ "\n- Eng: $60,000\n" ++ b)) ∧
    (∃ c d, generate_report (Frame.ofRecords empDataset) empSummary.toDict =
        .ok (c ++ "\n- Eng: 35.0 years\n" ++ d)) := by
  refine ⟨analyze_empDataset, rfl, rfl, rfl, by rw [abs_sub_lt_iff]; norm_num,
    rfl, rfl, rfl, ?_, ?_⟩
  · refine ⟨"\nEMPLOYEE ANALYSIS REPORT\n========================\n\nSummary Statistics:\n- Total Employees: 3\n- Average Age: 31.7 years\n- Average Salary: $53,333\n\nDepartments: Eng, Sales\nCities: NYC, LA\n\nSalary by Department:",
      "- Sales: $40,000\n\nAge by Department:\n- Eng: 35.0 years\n- Sales: 25.0 years\n", ?_⟩
    rw [report_empSummary]
    rfl
  · refine ⟨"\nEMPLOYEE ANALYSIS REPORT\n========================\n\nSummary Statistics:\n- Total Employees: 3\n- Average Age: 31.7 years\n- Average Salary: $53,333\n\nDepartments: Eng, Sales\nCities: NYC, LA\n\nSalary by Department:\n- Eng: $60,000\n- Sales: $40,000\n\nAge by Department:",
      "- Sales: 25.0 years\n", ?_⟩
    rw [report_empSummary]
    rfl

/-- C4: for every Dataset with the four required columns, the Summary's
`departments` list contains each distinct department exactly once, with no
duplicates, in order of first appearance in the Dataset, and `cities` does
the same for the city column. -/
theorem distinct_first_seen_columns (rows : List Record) :
    ∃ s, analyze_employee_data (Frame.ofRecords rows) = .ok s ∧
      s.departments.Nodup ∧
      (∀ x, x ∈ s.departments ↔ x ∈ rows.map Record.department) ∧
      s.departments.Pairwise (fun a b =>
        firstIdx a (rows.map Record.department) < firstIdx b (rows.map Record.department)) ∧
      s.cities.Nodup ∧
      (∀ x, x ∈ s.cities ↔ x ∈ rows.map Record.city) ∧
      s.cities.Pairwise (fun a b =>
        firstIdx a (rows.map Record.city) < firstIdx b (rows.map Record.city)) :=
  ⟨_, analyze_ofRecords rows,
   nodup_uniqueFirstSeen _, fun x => mem_uniqueFirstSeen _ x,
   pairwise_firstIdx_uniqueFirstSeen _,
   nodup_uniqueFirstSeen _, fun x => mem_uniqueFirstSeen _ x,
   pairwise_firstIdx_uniqueFirstSeen _⟩

/-- C5: for every non-empty Dataset with the four required columns (the
Aggregator's stated domain), `average_age` is the arithmetic mean of the age
column and `average_salary` the arithmetic mean of the salary column. -/
theorem aggregator_column_means (rows : List Record) (s : Summary)
    (hok : analyze_employee_data (Frame.ofRecords rows) = .ok s) (hne : rows ≠ []) :
    s.average_age =
      some ((rows.map Record.age).sum / ((rows.map Record.age).length : ℚ)) ∧
    s.average_salary =
      some ((rows.map Record.salary).sum / ((rows.map Record.salary).length : ℚ)) := by
  rw [analyze_ofRecords] at hok
  obtain rfl := (Except.ok.inj hok).symm
  cases rows with
  | nil => exact absurd rfl hne
  | cons r rs => exact ⟨rfl, rfl⟩

/-- Witness for C5 at the three-row round-trip Dataset. -/
theorem aggregator_column_means_witness :
    analyze_employee_data (Frame.ofRecords empDataset) = .ok empSummary ∧
    empDataset ≠ [] ∧
    empSummary.average_age =
      some ((empDataset.map Record.age).sum / ((empDataset.map Record.age).length : ℚ)) ∧
    empSummary.average_salary =
      some ((empDataset.map Record.salary).sum /
        ((empDataset.map Record.salary).length : ℚ)) :=
  ⟨analyze_empDataset, by decide,
   (aggregator_column_means empDataset empSummary analyze_empDataset (by decide)).1,
   (aggregator_column_means empDataset empSummary analyze_empDataset (by decide)).2⟩

/-- C6: for every Dataset, `total_employees` equals the row count exactly. -/
theorem total_employees_row_count (rows : List Record) :
    ∃ s, analyze_employee_data (Frame.ofRecords rows) = .ok s ∧
      s.total_employees = rows.length :=
  ⟨_, analyze_ofRecords rows, rfl⟩

/-- C7: if the input Dataset lacks a required column, the Aggregator fails
immediately with a `KeyError` naming a missing column (the first one in
access order) and returns no partial result; and if the Reporter's summary
dict lacks an expected key, the Reporter fails with a `KeyError` naming a
missing key and returns no partial result.  The present columns/values are
assumed well-typed per the schema invariant. -/
theorem missing_column_and_missing_key_errors :
    (∀ (df : Frame) (k : String), colsWellTyped df = true →
      firstMissingColumn df = some k →
      analyze_employee_data df = .error (.keyError k)) ∧
    (∀ (df : Frame) (r : List (String × SVal)) (k : String), reportValsOk r = true →
      firstMissingKey r = some k →
      generate_report df r = .error (.keyError k)) :=
  ⟨analyze_missing_column, report_missing_key⟩

/-- Witness for C7: a frame lacking the `salary` column makes the Aggregator
fail with `KeyError: salary`; a summary dict lacking `average_age` makes the
Reporter fail with `KeyError: average_age`. -/
theorem missing_column_and_missing_key_errors_witness :
    analyze_employee_data wFrame = .error (.keyError "salary") ∧
    generate_report wFrame wDict = .error (.keyError "average_age") :=
  ⟨missing_column_and_missing_key_errors.1 wFrame "salary" (by decide) (by decide),
   missing_column_and_missing_key_errors.2 wFrame wDict "average_age" (by decide) (by decide)⟩

/-- C8: on a Dataset with zero rows (all four columns present) the Aggregator
does not fail and does not return ordinary numeric means: `average_age` and
`average_salary` are NaN (modelled as `none`), the lists and mappings are
empty and the count is 0. -/
theorem empty_dataset_nan_means :
    analyze_employee_data (Frame.ofRecords []) =
      .ok { total_employees := 0, average_age := none, average_salary := none,
            departments := [], cities := [], salary_by_dept := [], age_by_dept := [] } :=
  rfl

/-- C9: the Reporter's output is a function of the summary dict alone: the
DataFrame argument is never consulted, so any two frames give identical
results for the same summary dict. -/
theorem report_depends_only_on_summary (df1 df2 : Frame) (r : List (String × SVal)) :
    generate_report df1 r = generate_report df2 r :=
  rfl

/-- C10: for every well-formed Summary the report string begins with a
newline that precedes the `EMPLOYEE ANALYSIS REPORT` header and its 24-equals
underline (so the header is not at the start of the string), and the report
string ends with a newline. -/
theorem report_newline_framing (df : Frame) (s : Summary) :
    (∃ t, generate_report df s.toDict =
        .ok ("\nEMPLOYEE ANALYSIS REPORT\n========================\n" ++ t)) ∧
    (∃ p, generate_report df s.toDict = .ok (p ++ "\n")) := by
  constructor
  · refine ⟨"\nSummary Statistics:\n- Total Employees: "
        ++ SVal.pyStr (SVal.i s.total_employees)
        ++ "\n- Average Age: " ++ fmt1opt s.average_age ++ " years"
        ++ "\n- Average Salary: $" ++ commaFmtOpt s.average_salary
        ++ "\n\nDepartments: " ++ String.intercalate ", " s.departments
        ++ "\nCities: " ++ String.intercalate ", " s.cities
        ++ "\n\nSalary by Department:\n"
        ++ concatLines (s.salary_by_dept.map salaryLine)
        ++ "\nAge by Department:\n"
        ++ concatLines (s.age_by_dept.map ageLine), ?_⟩
    rw [generate_report_toDict]
    unfold reportString reportHeadParts
    simp only [String.append_assoc]
  · obtain ⟨p, hp⟩ := concatLines_age_endsNL s.age_by_dept
      (reportHeadParts (SVal.i s.total_employees) s.average_age s.average_salary
          s.departments s.cities
        ++ concatLines (s.salary_by_dept.map salaryLine) ++ "\nAge by Department:\n")
      (append_ageHeader_endsNL _)
    exact ⟨p, by rw [generate_report_toDict]; exact congrArg Except.ok hp⟩
